import Mathlib

/-!
Shallow embedding of `verification/verify_timeline_images.py` (function
`test_timeline_images`), a Playwright-driven smoke test:

```python
with sync_playwright() as p:
    browser = p.chromium.launch(headless=True)
    page = browser.new_page()
    page.goto("http://localhost:3000/vast-timeline")
    page.wait_for_selector("text=Nusantara Timeline", timeout=10000)
    try:
        event_label = page.get_by_text("The Sangiran Flourishing").last
        event_label.wait_for(state="visible", timeout=5000)
        event_label.click()
        popover_img = page.locator("div.absolute.z-50 img")
        popover_img.wait_for(state="visible", timeout=2000)
        src = popover_img.get_attribute("src")
        print("Image src: " + str-of src)      # f-string in the source
    except Exception as e:
        print("Error: " + str-of e)            # f-string in the source
    page.wait_for_timeout(1000)
    page.screenshot(path="verification/timeline_screenshot_clicked.png")
    browser.close()
```

The script is a strictly sequential chain of calls into the Playwright
library; its own logic is the ordering, the one try/except boundary, the
`.last` tie-break and the hard-coded constants.  We model one run as a
deterministic function of an environment `Env` that fixes the outcome of
every external call (whether the browser launches, when elements become
visible, the page's element lists, attribute values).  The run produces a
trace of observable events (calls issued, lines printed, the screenshot,
the browser close) together with the error that propagates out of the
script, if any.

Library semantics used by the model, from the Playwright documentation for
the exact calls the source makes:
* `page.get_by_text(t)` with the default `exact=False` matches elements
  whose (whitespace-normalized) visible text contains `t` as a
  case-insensitive substring; `.last` selects the final match in document
  order.  We model case-insensitive substring containment (the whitespace
  normalization is irrelevant to the texts involved and is omitted).
* `locator.wait_for(state="visible", timeout=ms)` raises a timeout error
  when the locator matches nothing (or never becomes visible) within the
  bound, and raises a strict-mode violation when the locator resolves to
  more than one element.
* `locator.get_attribute(name)` returns the attribute value, or `None`
  when the element lacks the attribute; a missing attribute is not an
  error.  Python's f-string renders `None` as the text `"None"`.
* `page.screenshot(path=...)` captures the viewport only: the `full_page`
  option defaults to `False` and the source does not set it.
* `with sync_playwright() as p:` guarantees on block exit (normal or by
  exception) that the driver is stopped, terminating any browser it
  launched that is still open; an exception raised in the block still
  propagates afterwards.  A browser already closed by an explicit
  `browser.close()` is not closed again.
-/

/-- A DOM element as the script observes it: only its visible text matters. -/
structure DomElement where
  text : String
deriving DecidableEq, Repr

/-- An `img` element as the script observes it: only its `src` attribute
value matters (`none` models an absent attribute). -/
structure ImgElement where
  src : Option String
deriving DecidableEq, Repr

/-- Errors raised by the Playwright calls the script performs.  The string
is the message that Python's `f"Error: \x7be\x7d"` would interpolate. -/
inductive PwError where
  | launchFailed (msg : String)
  | newPageFailed (msg : String)
  | navigationFailed (msg : String)
  | timeoutError (msg : String)
  | strictModeViolation (msg : String)
  | clickFailed (msg : String)
deriving DecidableEq, Repr

/-- The text interpolated for the exception by `print(f"Error: \x7be\x7d")`. -/
def PwError.message : PwError → String
  | .launchFailed m => m
  | .newPageFailed m => m
  | .navigationFailed m => m
  | .timeoutError m => m
  | .strictModeViolation m => m
  | .clickFailed m => m

/-- Observable events of one run: each external call the script issues (an
event is recorded when the call is made, whether or not it then raises),
every line printed to standard output, and the teardown. -/
inductive Event where
  | launch
  | newPage
  | gotoUrl (url : String)
  | waitSelector (sel : String) (timeoutMs : Nat)
  | labelWait (timeoutMs : Nat)
  | clickOn (el : DomElement)
  | imgWait (timeoutMs : Nat)
  | getAttr (name : String)
  | printLine (s : String)
  | sleep (ms : Nat)
  | screenshot (path : String) (fullPage : Bool)
  | browserClose
deriving DecidableEq, Repr

/-- Outcome of every external interaction, fixed before the run: the state
of the world the script executes against. -/
structure Env where
  /-- `p.chromium.launch` succeeds. -/
  launchOk : Bool
  /-- `browser.new_page` succeeds. -/
  newPageOk : Bool
  /-- `page.goto` succeeds. -/
  gotoOk : Bool
  /-- Milliseconds at which an element matching `text=Nusantara Timeline`
  becomes visible; `none` means it never does. -/
  readyAtMs : Option Nat
  /-- The page's elements, in document order, as candidates for text
  queries. -/
  elements : List DomElement
  /-- Milliseconds at which the selected label becomes visible; `none`
  means it never does. -/
  labelVisibleAtMs : Option Nat
  /-- `event_label.click()` succeeds. -/
  clickOk : Bool
  /-- The `img` elements matching `div.absolute.z-50 img`, in document
  order. -/
  popoverImgs : List ImgElement
  /-- Milliseconds at which the popover image becomes visible; `none`
  means it never does. -/
  imgVisibleAtMs : Option Nat
deriving Repr

/-- Is `pre` a leading segment of the second list? -/
def leadingSeg : List Char → List Char → Bool
  | [], _ => true
  | _ :: _, [] => false
  | a :: as, b :: bs => a == b && leadingSeg as bs

/-- Does the second list contain `needle` as a contiguous sublist? -/
def containsSub (needle : List Char) : List Char → Bool
  | [] => leadingSeg needle []
  | c :: cs => leadingSeg needle (c :: cs) || containsSub needle cs

/-- Lower-cased character list of a string. -/
def lowerChars (s : String) : List Char := s.data.map Char.toLower

/-- Playwright text matching with the default `exact=False`: the element's
visible text contains the query as a case-insensitive substring. -/
def textMatches (needle hay : String) : Bool :=
  containsSub (lowerChars needle) (lowerChars hay)

/-- The matches of `page.get_by_text t`, in document order. -/
def getByText (els : List DomElement) (t : String) : List DomElement :=
  els.filter (fun el => textMatches t el.text)

/-- Does a condition that becomes true at `at?` milliseconds (never, when
`none`) hold within a wait bounded by `limit` milliseconds? -/
def visibleWithin (at? : Option Nat) (limit : Nat) : Bool :=
  match at? with
  | some t => t ≤ limit
  | none => false

/-- The query string of `page.get_by_text`. -/
def targetText : String := "The Sangiran Flourishing"

/-- The selector of the readiness wait. -/
def readySelector : String := "text=Nusantara Timeline"

/-- The fixed navigation target. -/
def targetUrl : String := "http://localhost:3000/vast-timeline"

/-- The fixed screenshot output path. -/
def screenshotPath : String := "verification/timeline_screenshot_clicked.png"

/-- The `try:` block, steps a–f of the spec: locate the label by text and
take the last match, wait for it (5000 ms), click it, locate
`div.absolute.z-50 img`, wait for it (2000 ms), read `src` and print it.
Returns the events performed together with the exception raised inside the
block, if any (to be caught by `except`). -/
def interactionBlock (e : Env) : List Event × Option PwError :=
  match (getByText e.elements targetText).getLast? with
  | none =>
    ([Event.labelWait 5000],
     some (PwError.timeoutError "Timeout 5000ms exceeded."))
  | some el =>
    if visibleWithin e.labelVisibleAtMs 5000 = false then
      ([Event.labelWait 5000],
       some (PwError.timeoutError "Timeout 5000ms exceeded."))
    else if e.clickOk = false then
      ([Event.labelWait 5000, Event.clickOn el],
       some (PwError.clickFailed "element click failed"))
    else if 2 ≤ e.popoverImgs.length then
      ([Event.labelWait 5000, Event.clickOn el, Event.imgWait 2000],
       some (PwError.strictModeViolation
         "strict mode violation: locator resolved to multiple elements"))
    else
      match e.popoverImgs.head? with
      | none =>
        ([Event.labelWait 5000, Event.clickOn el, Event.imgWait 2000],
         some (PwError.timeoutError "Timeout 2000ms exceeded."))
      | some img =>
        if visibleWithin e.imgVisibleAtMs 2000 = false then
          ([Event.labelWait 5000, Event.clickOn el, Event.imgWait 2000],
           some (PwError.timeoutError "Timeout 2000ms exceeded."))
        else
          ([Event.labelWait 5000, Event.clickOn el, Event.imgWait 2000,
            Event.getAttr "src",
            Event.printLine ("Image src: " ++
              (match img.src with | some s => s | none => "None"))],
           none)

/-- The script from the `try:` statement on: run the interaction block,
catch any exception it raised and print `Error: ...`, then
unconditionally sleep 1000 ms, take the (viewport) screenshot at the fixed
path, and close the browser.  Nothing here raises, so the result error is
`none`. -/
def runAfterReady (e : Env) : List Event × Option PwError :=
  let ib := interactionBlock e
  let caught :=
    match ib.2 with
    | none => ib.1
    | some err => ib.1 ++ [Event.printLine ("Error: " ++ err.message)]
  (caught ++
    [Event.sleep 1000, Event.screenshot screenshotPath false,
     Event.browserClose], none)

/-- One full run of `test_timeline_images`.  The `with sync_playwright()`
block guarantees that when an exception escapes the body after the browser
was launched, the driver teardown closes the still-open browser (recorded
as `Event.browserClose`) and the exception then propagates: the second
component is the error that escapes the script, `none` meaning the process
exits successfully. -/
def runVerifier (e : Env) : List Event × Option PwError :=
  if e.launchOk = false then
    ([], some (PwError.launchFailed "browser launch failed"))
  else if e.newPageOk = false then
    ([Event.launch, Event.browserClose],
     some (PwError.newPageFailed "new page failed"))
  else if e.gotoOk = false then
    ([Event.launch, Event.newPage, Event.gotoUrl targetUrl,
      Event.browserClose],
     some (PwError.navigationFailed "net::ERR_CONNECTION_REFUSED"))
  else if visibleWithin e.readyAtMs 10000 = false then
    ([Event.launch, Event.newPage, Event.gotoUrl targetUrl,
      Event.waitSelector readySelector 10000, Event.browserClose],
     some (PwError.timeoutError "Timeout 10000ms exceeded."))
  else
    let rest := runAfterReady e
    ([Event.launch, Event.newPage, Event.gotoUrl targetUrl,
      Event.waitSelector readySelector 10000] ++ rest.1, rest.2)

/-- The process exit reflects success exactly when no error escapes. -/
def exitSuccess (e : Env) : Bool := (runVerifier e).2.isNone

/-- Is the event a screenshot capture? -/
def isScreenshotEv : Event → Bool
  | .screenshot _ _ => true
  | _ => false

/-- Is the event one of the interaction steps (locate-wait, click, popover
wait, attribute read)? -/
def isInteractionEv : Event → Bool
  | .labelWait _ => true
  | .clickOn _ => true
  | .imgWait _ => true
  | .getAttr _ => true
  | _ => false

/-- Is the event the browser close? -/
def isCloseEv : Event → Bool
  | .browserClose => true
  | _ => false

/-- Number of browser closes in a trace. -/
def closeCount (tr : List Event) : Nat := tr.countP (fun ev => isCloseEv ev)

/-- Was a screenshot written during the trace? -/
def wroteScreenshot (tr : List Event) : Bool :=
  tr.any (fun ev => isScreenshotEv ev)

/-- The lines printed to standard output during a trace, in order. -/
def printedLines (tr : List Event) : List String :=
  tr.filterMap (fun ev => match ev with | .printLine s => some s | _ => none)

/-- The elements clicked during a trace, in order. -/
def clickedElems (tr : List Event) : List DomElement :=
  tr.filterMap (fun ev => match ev with | .clickOn el => some el | _ => none)

/-- The screenshots captured during a trace: output path and whether the
capture was full-page, in order. -/
def screenshotEvents (tr : List Event) : List (String × Bool) :=
  tr.filterMap (fun ev => match ev with
    | .screenshot p fp => some (p, fp)
    | _ => none)

/-- Does a wait event carry the timeout bound the source hard-codes for it
(readiness wait 10000 ms, label-visibility wait 5000 ms, popover-image
wait 2000 ms)?  Non-wait events pass vacuously. -/
def waitEventOk : Event → Bool
  | .waitSelector sel t => sel == readySelector && t == 10000
  | .labelWait t => t == 5000
  | .imgWait t => t == 2000
  | _ => true

/-- Is the event the readiness wait? -/
def isReadyWaitEv : Event → Bool
  | .waitSelector _ _ => true
  | _ => false

/-- Is the event the label-visibility wait? -/
def isLabelWaitEv : Event → Bool
  | .labelWait _ => true
  | _ => false

/-- Is the event the popover-image visibility wait? -/
def isImgWaitEv : Event → Bool
  | .imgWait _ => true
  | _ => false

/-- Happy-path environment: everything up, one label, one popover image
with a `src`. -/
def happyEnv : Env :=
  { launchOk := true, newPageOk := true, gotoOk := true,
    readyAtMs := some 0,
    elements := [⟨"The Sangiran Flourishing"⟩],
    labelVisibleAtMs := some 0, clickOk := true,
    popoverImgs := [⟨some "/images/sangiran.jpg"⟩],
    imgVisibleAtMs := some 0 }

/-- Environment in which the page is ready but the target label never
appears. -/
def noLabelEnv : Env :=
  { happyEnv with elements := [], labelVisibleAtMs := none }

/-- Environment in which the readiness marker never becomes visible. -/
def notReadyEnv : Env :=
  { happyEnv with readyAtMs := none }

/-- Environment with two elements whose text contains the target text; the
first one carries exactly the target text. -/
def twoLabelEnv : Env :=
  { happyEnv with
    elements := [⟨"The Sangiran Flourishing"⟩,
                 ⟨"The Sangiran Flourishing Era"⟩] }

/-- Environment in which the popover image appears but has no `src`
attribute. -/
def noSrcEnv : Env :=
  { happyEnv with popoverImgs := [⟨none⟩] }

/-- Environment in which two images match the popover query. -/
def twoImgEnv : Env :=
  { happyEnv with
    popoverImgs := [⟨some "/images/sangiran.jpg"⟩, ⟨some "/images/java.jpg"⟩] }

/-! Helper lemmas about the interaction block's trace, shared by the claim
theorems below. -/

/-- Whatever the environment, the interaction block's trace carries only the
hard-coded wait bounds, contains no readiness wait, at most one label wait
and one image wait, and never closes the browser or takes a screenshot. -/
theorem interactionBlock_shape (e : Env) :
    (interactionBlock e).1.all waitEventOk = true ∧
    (interactionBlock e).1.countP (fun ev => isReadyWaitEv ev) = 0 ∧
    (interactionBlock e).1.countP (fun ev => isLabelWaitEv ev) ≤ 1 ∧
    (interactionBlock e).1.countP (fun ev => isImgWaitEv ev) ≤ 1 ∧
    closeCount (interactionBlock e).1 = 0 ∧
    wroteScreenshot (interactionBlock e).1 = false := by
  unfold interactionBlock
  repeat' split
  all_goals
    simp [waitEventOk, isReadyWaitEv, isLabelWaitEv, isImgWaitEv, closeCount,
      isCloseEv, wroteScreenshot, isScreenshotEv, readySelector,
      List.countP_cons, List.countP_nil]

/-- The interaction block never takes a screenshot. -/
theorem screenshotEvents_interactionBlock (e : Env) :
    screenshotEvents (interactionBlock e).1 = [] := by
  unfold interactionBlock
  repeat' split
  all_goals simp [screenshotEvents]

/-- When the label query has a last match which becomes visible in time and
the click call succeeds, the one element clicked inside the interaction
block is that last match. -/
theorem clickedElems_interactionBlock (e : Env) (el : DomElement)
    (hlast : (getByText e.elements targetText).getLast? = some el)
    (hvis : visibleWithin e.labelVisibleAtMs 5000 = true)
    (hclick : e.clickOk = true) :
    clickedElems (interactionBlock e).1 = [el] := by
  unfold interactionBlock
  rw [hlast]
  simp only [hvis, hclick]
  repeat' split
  all_goals simp_all [clickedElems]

/-- Once the browser has launched, every run closes it exactly once: the
success and recovered-failure paths close it explicitly as the last
statement, and on the fatal paths the context-manager teardown closes the
still-open browser. -/
theorem closeCount_runVerifier (e : Env) (hl : e.launchOk = true) :
    closeCount (runVerifier e).1 = 1 := by
  obtain ⟨_, _, _, _, hc, _⟩ := interactionBlock_shape e
  simp only [runVerifier, runAfterReady, hl]
  repeat' split
  all_goals
    simp_all [closeCount, isCloseEv, List.countP_append, List.countP_cons]

/-- When every step a–f succeeds and the popover image's `src` is `s`, the
interaction block performs exactly the label wait, the click, the image
wait, the attribute read and the success print, and raises nothing. -/
theorem interactionBlock_success (e : Env) (el : DomElement)
    (hlast : (getByText e.elements targetText).getLast? = some el)
    (hvis : visibleWithin e.labelVisibleAtMs 5000 = true)
    (hclick : e.clickOk = true)
    (img : ImgElement) (himgs : e.popoverImgs = [img])
    (hiv : visibleWithin e.imgVisibleAtMs 2000 = true)
    (s : String) (hsrc : img.src = some s) :
    interactionBlock e =
      ([Event.labelWait 5000, Event.clickOn el, Event.imgWait 2000,
        Event.getAttr "src", Event.printLine ("Image src: " ++ s)], none) := by
  unfold interactionBlock
  rw [hlast]
  simp [hvis, hclick, himgs, hiv, hsrc]

/-! The claims. -/

/-- Claim C1: in every run in which the readiness wait succeeds but the
interaction block fails (label absent, a visibility wait timed out, or the
click failed), the screenshot file is still written and the process exits
with success status — the inner failure does not propagate out of the run. -/
theorem c1_capture_on_partial_failure (e : Env)
    (hl : e.launchOk = true) (hp : e.newPageOk = true) (hg : e.gotoOk = true)
    (hr : visibleWithin e.readyAtMs 10000 = true)
    (_hf : (interactionBlock e).2.isSome = true) :
    wroteScreenshot (runVerifier e).1 = true ∧ exitSuccess e = true := by
  simp only [runVerifier, runAfterReady, exitSuccess, hl, hp, hg, hr]
  rcases hib : (interactionBlock e).2 with _ | err <;>
    simp [wroteScreenshot, isScreenshotEv, List.any_append]

/-- Claim C1 witness: with the page ready but the target label absent, the
interaction block fails, yet the screenshot is written and the run exits
successfully. -/
theorem c1_witness :
    (interactionBlock noLabelEnv).2.isSome = true ∧
    (wroteScreenshot (runVerifier noLabelEnv).1 = true ∧
      exitSuccess noLabelEnv = true) :=
  ⟨by decide, c1_capture_on_partial_failure noLabelEnv rfl rfl rfl rfl (by decide)⟩

/-- Claim C2: in every run in which the readiness marker does not become
visible within its 10000 ms bound, the run terminates with a propagated
timeout failure, no interaction step (label wait, click, popover wait,
attribute read) executes, and no screenshot is written. -/
theorem c2_readiness_gate (e : Env)
    (hl : e.launchOk = true) (hp : e.newPageOk = true) (hg : e.gotoOk = true)
    (hr : visibleWithin e.readyAtMs 10000 = false) :
    (runVerifier e).2 = some (PwError.timeoutError "Timeout 10000ms exceeded.") ∧
    (runVerifier e).1.countP (fun ev => isInteractionEv ev) = 0 ∧
    wroteScreenshot (runVerifier e).1 = false := by
  simp only [runVerifier, hl, hp, hg, hr]
  simp [isInteractionEv, wroteScreenshot, isScreenshotEv, List.countP_cons]

/-- Claim C2 witness: when the readiness marker never appears, the timeout
propagates, no interaction event occurs and no screenshot is written. -/
theorem c2_witness :
    visibleWithin notReadyEnv.readyAtMs 10000 = false ∧
    ((runVerifier notReadyEnv).2 =
        some (PwError.timeoutError "Timeout 10000ms exceeded.") ∧
      (runVerifier notReadyEnv).1.countP (fun ev => isInteractionEv ev) = 0 ∧
      wroteScreenshot (runVerifier notReadyEnv).1 = false) :=
  ⟨by decide, c2_readiness_gate notReadyEnv rfl rfl rfl rfl⟩

/-- Claim C3: on every exit path of a run in which the browser launched —
success, recovered interaction failure, and the fatal navigation-failure
and readiness-timeout paths — the browser session is closed exactly once. -/
theorem c3_teardown_once (e : Env) (hl : e.launchOk = true) :
    closeCount (runVerifier e).1 = 1 :=
  closeCount_runVerifier e hl

/-- Claim C3 witness: the happy-path run closes the browser exactly once. -/
theorem c3_witness : closeCount (runVerifier happyEnv).1 = 1 :=
  c3_teardown_once happyEnv rfl

/-- Claim C4 counterexample: on a page whose elements are
`"The Sangiran Flourishing"` followed by `"The Sangiran Flourishing Era"`,
exactly one element bears the exact target text and it is the last such
element, yet the run clicks the other element: `get_by_text` with its
default `exact=False` matches by case-insensitive substring, so the second
element is the last match in document order. -/
theorem c4_exact_text_counterexample :
    (twoLabelEnv.elements.filter (fun el => el.text == targetText)).length = 1 ∧
    (twoLabelEnv.elements.filter (fun el => el.text == targetText)).getLast?
      = some ⟨targetText⟩ ∧
    clickedElems (runVerifier twoLabelEnv).1 =
      [⟨"The Sangiran Flourishing Era"⟩] := by decide

/-- Claim C4 amended: the element located and clicked is chosen by
Playwright's default text matching (case-insensitive substring of the
visible text), not by exact text; for every page with N ≥ 1 elements whose
text matches the target this way, the Verifier clicks exactly the match
last in document order (which, when all matches carry exactly the target
text, is the last exact-text element; for N = 1 it is the single match). -/
theorem c4_last_match_clicked (e : Env)
    (hl : e.launchOk = true) (hp : e.newPageOk = true) (hg : e.gotoOk = true)
    (hr : visibleWithin e.readyAtMs 10000 = true)
    (el : DomElement)
    (hlast : (getByText e.elements targetText).getLast? = some el)
    (hvis : visibleWithin e.labelVisibleAtMs 5000 = true)
    (hclick : e.clickOk = true) :
    clickedElems (runVerifier e).1 = [el] := by
  have hib := clickedElems_interactionBlock e el hlast hvis hclick
  simp only [runVerifier, runAfterReady, hl, hp, hg, hr]
  rcases hib2 : (interactionBlock e).2 with _ | err <;>
    simp_all [clickedElems, List.filterMap_append]

/-- Claim C4 witness: on the two-label page the run clicks exactly the last
substring match. -/
theorem c4_witness :
    clickedElems (runVerifier twoLabelEnv).1 =
      [⟨"The Sangiran Flourishing Era"⟩] :=
  c4_last_match_clicked twoLabelEnv rfl rfl rfl rfl
    ⟨"The Sangiran Flourishing Era"⟩ (by decide) rfl rfl

/-- Claim C5 counterexample: when every interaction step succeeds but the
popover image has no `src` attribute, the run prints only the success-form
line `"Image src: None"` (the `None` rendering of the absent attribute)
and exits successfully — `get_attribute` returns `None` instead of
raising, so no diagnostic error message is produced. -/
theorem c5_attr_missing_counterexample :
    printedLines (runVerifier noSrcEnv).1 = ["Image src: None"] ∧
    exitSuccess noSrcEnv = true := by decide

/-- Claim C5 amended: every failure raised in the interaction steps
(element not found, a visibility-wait timeout, a click failure, a
strict-mode violation) is caught at the interaction boundary, a diagnostic
line containing the failure detail is printed, and execution continues to
the settle wait and the screenshot; a missing `src` attribute, however, is
not a failure — `get_attribute` returns `None` and the run emits the
success-form line `"Image src: None"`. -/
theorem c5_interaction_failure_caught (e : Env)
    (hl : e.launchOk = true) (hp : e.newPageOk = true) (hg : e.gotoOk = true)
    (hr : visibleWithin e.readyAtMs 10000 = true)
    (err : PwError) (hf : (interactionBlock e).2 = some err) :
    ("Error: " ++ err.message) ∈ printedLines (runVerifier e).1 ∧
    wroteScreenshot (runVerifier e).1 = true ∧ exitSuccess e = true := by
  simp [runVerifier, runAfterReady, exitSuccess, hl, hp, hg, hr, hf,
    printedLines, wroteScreenshot, isScreenshotEv, List.filterMap_append,
    List.any_append]

/-- Claim C5 witness: with the target label absent, the 5000 ms timeout is
caught, its detail is printed, and the run still screenshots and exits
successfully. -/
theorem c5_witness :
    (interactionBlock noLabelEnv).2 =
      some (PwError.timeoutError "Timeout 5000ms exceeded.") ∧
    (("Error: " ++ (PwError.timeoutError "Timeout 5000ms exceeded.").message)
        ∈ printedLines (runVerifier noLabelEnv).1 ∧
      wroteScreenshot (runVerifier noLabelEnv).1 = true ∧
      exitSuccess noLabelEnv = true) :=
  ⟨by decide,
   c5_interaction_failure_caught noLabelEnv rfl rfl rfl rfl
     (PwError.timeoutError "Timeout 5000ms exceeded.") (by decide)⟩

/-- Claim C6 counterexample: the happy-path run's one screenshot is taken
with `full_page` at its default `False` — `page.screenshot` is called with
only a `path` argument — so the capture is of the viewport, not full-page.
The fixed path and the unconditional capture themselves hold. -/
theorem c6_not_fullpage_counterexample :
    screenshotEvents (runVerifier happyEnv).1 = [(screenshotPath, false)] ∧
    Event.screenshot screenshotPath true ∉ (runVerifier happyEnv).1 := by
  decide

/-- Claim C6 amended: on every run that reaches evidence capture, exactly
one screenshot is taken — a default viewport capture (`full_page` unset,
hence `False`), not a full-page one — and it is persisted unconditionally
to the single fixed relative path
`verification/timeline_screenshot_clicked.png`, so consecutive runs
overwrite the same file rather than accumulating files. -/
theorem c6_fixed_path_capture (e : Env)
    (hl : e.launchOk = true) (hp : e.newPageOk = true) (hg : e.gotoOk = true)
    (hr : visibleWithin e.readyAtMs 10000 = true) :
    screenshotEvents (runVerifier e).1 = [(screenshotPath, false)] := by
  have hse := screenshotEvents_interactionBlock e
  simp only [runVerifier, runAfterReady, hl, hp, hg, hr]
  rcases hib : (interactionBlock e).2 with _ | err <;>
    simp_all [screenshotEvents, List.filterMap_append]

/-- Claim C6 witness: even with the target label absent the run takes
exactly one screenshot, at the fixed path, viewport-sized. -/
theorem c6_witness :
    screenshotEvents (runVerifier noLabelEnv).1 = [(screenshotPath, false)] :=
  c6_fixed_path_capture noLabelEnv rfl rfl rfl rfl

/-- Claim C7: in every run, every wait is a single bounded attempt with the
hard-coded limit — the readiness wait at 10000 ms, the label-visibility
wait at 5000 ms, the popover-image wait at 2000 ms — and each of the three
waits occurs at most once (no retries). -/
theorem c7_waits_single_bounded (e : Env) :
    (runVerifier e).1.all waitEventOk = true ∧
    (runVerifier e).1.countP (fun ev => isReadyWaitEv ev) ≤ 1 ∧
    (runVerifier e).1.countP (fun ev => isLabelWaitEv ev) ≤ 1 ∧
    (runVerifier e).1.countP (fun ev => isImgWaitEv ev) ≤ 1 := by
  obtain ⟨h1, h2, h3, h4, _, _⟩ := interactionBlock_shape e
  simp only [runVerifier, runAfterReady]
  repeat' split
  all_goals
    simp_all [waitEventOk, isReadyWaitEv, isLabelWaitEv, isImgWaitEv,
      readySelector, List.countP_append, List.countP_cons, List.countP_nil,
      List.all_append]

/-- Claim C8: in every run in which all interaction steps succeed, the
popover image's `src` attribute value is read and the literal source
string is emitted to standard output as `"Image src: " ++ s`. -/
theorem c8_src_emitted (e : Env)
    (hl : e.launchOk = true) (hp : e.newPageOk = true) (hg : e.gotoOk = true)
    (hr : visibleWithin e.readyAtMs 10000 = true)
    (el : DomElement)
    (hlast : (getByText e.elements targetText).getLast? = some el)
    (hvis : visibleWithin e.labelVisibleAtMs 5000 = true)
    (hclick : e.clickOk = true)
    (img : ImgElement) (himgs : e.popoverImgs = [img])
    (hiv : visibleWithin e.imgVisibleAtMs 2000 = true)
    (s : String) (hsrc : img.src = some s) :
    ("Image src: " ++ s) ∈ printedLines (runVerifier e).1 := by
  have hib := interactionBlock_success e el hlast hvis hclick img himgs hiv s hsrc
  simp [runVerifier, runAfterReady, hl, hp, hg, hr, hib, printedLines,
    List.filterMap_append]

/-- Claim C8 witness: the happy-path run prints
`"Image src: /images/sangiran.jpg"`. -/
theorem c8_witness :
    ("Image src: " ++ "/images/sangiran.jpg") ∈
      printedLines (runVerifier happyEnv).1 :=
  c8_src_emitted happyEnv rfl rfl rfl rfl ⟨"The Sangiran Flourishing"⟩
    (by decide) rfl rfl ⟨some "/images/sangiran.jpg"⟩ rfl rfl
    "/images/sangiran.jpg" rfl

/-- Claim C9: in every run that passes the readiness gate — whatever the
outcome of the interaction block — the trace ends with the fixed 1000 ms
settle pause, then the screenshot, then the browser close: the pause is
always executed, after the interaction block and before the capture. -/
theorem c9_settle_then_capture (e : Env)
    (hl : e.launchOk = true) (hp : e.newPageOk = true) (hg : e.gotoOk = true)
    (hr : visibleWithin e.readyAtMs 10000 = true) :
    ∃ pre, (runVerifier e).1 = pre ++
      [Event.sleep 1000, Event.screenshot screenshotPath false,
       Event.browserClose] := by
  rcases hib : (interactionBlock e).2 with _ | err
  · refine ⟨[Event.launch, Event.newPage, Event.gotoUrl targetUrl,
      Event.waitSelector readySelector 10000] ++ (interactionBlock e).1, ?_⟩
    simp [runVerifier, runAfterReady, hl, hp, hg, hr, hib]
  · refine ⟨[Event.launch, Event.newPage, Event.gotoUrl targetUrl,
      Event.waitSelector readySelector 10000] ++ (interactionBlock e).1 ++
      [Event.printLine ("Error: " ++ err.message)], ?_⟩
    simp [runVerifier, runAfterReady, hl, hp, hg, hr, hib]

/-- Claim C9 witness: the happy-path trace ends with the settle pause, the
screenshot and the close, in that order. -/
theorem c9_witness :
    ∃ pre, (runVerifier happyEnv).1 = pre ++
      [Event.sleep 1000, Event.screenshot screenshotPath false,
       Event.browserClose] :=
  c9_settle_then_capture happyEnv rfl rfl rfl rfl

/-- Claim C10: when, after the click, two or more images match the overlay
query, the popover wait fails with a strict-mode violation rather than
picking one image arbitrarily; that failure is absorbed at the interaction
boundary like any other, so the run still prints the diagnostic, reaches
the screenshot, closes the browser exactly once and exits successfully. -/
theorem c10_strict_popover_absorbed (e : Env)
    (hl : e.launchOk = true) (hp : e.newPageOk = true) (hg : e.gotoOk = true)
    (hr : visibleWithin e.readyAtMs 10000 = true)
    (el : DomElement)
    (hlast : (getByText e.elements targetText).getLast? = some el)
    (hvis : visibleWithin e.labelVisibleAtMs 5000 = true)
    (hclick : e.clickOk = true)
    (hmulti : 2 ≤ e.popoverImgs.length) :
    (interactionBlock e).2 = some (PwError.strictModeViolation
      "strict mode violation: locator resolved to multiple elements") ∧
    ("Error: strict mode violation: locator resolved to multiple elements")
      ∈ printedLines (runVerifier e).1 ∧
    wroteScreenshot (runVerifier e).1 = true ∧
    closeCount (runVerifier e).1 = 1 ∧ exitSuccess e = true := by
  have hib : interactionBlock e =
      ([Event.labelWait 5000, Event.clickOn el, Event.imgWait 2000],
       some (PwError.strictModeViolation
         "strict mode violation: locator resolved to multiple elements")) := by
    unfold interactionBlock
    rw [hlast]
    simp [hvis, hclick, hmulti]
  refine ⟨by rw [hib], ?_, ?_, closeCount_runVerifier e hl, ?_⟩ <;>
    simp [runVerifier, runAfterReady, exitSuccess, hl, hp, hg, hr, hib,
      printedLines, wroteScreenshot, isScreenshotEv, List.filterMap_append,
      List.any_append, PwError.message]

/-- Claim C10 witness: with two images in the overlay container the run
hits the strict-mode violation, prints it, screenshots, closes the browser
once and exits successfully. -/
theorem c10_witness :
    (interactionBlock twoImgEnv).2 = some (PwError.strictModeViolation
      "strict mode violation: locator resolved to multiple elements") ∧
    ("Error: strict mode violation: locator resolved to multiple elements")
      ∈ printedLines (runVerifier twoImgEnv).1 ∧
    wroteScreenshot (runVerifier twoImgEnv).1 = true ∧
    closeCount (runVerifier twoImgEnv).1 = 1 ∧ exitSuccess twoImgEnv = true :=
  c10_strict_popover_absorbed twoImgEnv rfl rfl rfl rfl
    ⟨"The Sangiran Flourishing"⟩ (by decide) rfl rfl (by decide)
